import Mathlib

/-!
Verification of the PDF-converter pipeline (`src/main.py`) against its
design specification.  Python strings are modelled as `List Char`
(ASCII-faithful for every predicate the code uses); machine text methods
(`strip`, `split`, `isupper`, `upper`, `endswith`) are embedded below.
A Python exception that escapes a function is modelled as `Except.error`.
-/

namespace PdfConverter

/-- Python whitespace characters recognised by `str.strip()` (ASCII range). -/
def pySpace (c : Char) : Bool :=
  c = ' ' || c = '\t' || c = '\n' || c = '\r' || c = '\x0b' || c = '\x0c'

/-- Python `s.strip()`: remove leading and trailing whitespace. -/
def pyStrip (s : List Char) : List Char :=
  ((s.dropWhile pySpace).reverse.dropWhile pySpace).reverse

/-- Python `s.split('\n')`: split on every newline; `"".split('\n') = [""]`. -/
def pySplit : List Char → List (List Char)
  | [] => [[]]
  | c :: rest =>
    if c = '\n' then [] :: pySplit rest
    else
      match pySplit rest with
      | [] => [[c]]
      | l :: ls => (c :: l) :: ls

/-- A character is cased (upper- or lower-case letter), as used by Python
`str.isupper()` (ASCII range). -/
def pyCased (c : Char) : Bool := c.isUpper || c.isLower

/-- Python `s.isupper()`: at least one cased character and no lower-case
character. -/
def pyIsUpper (s : List Char) : Bool :=
  s.any pyCased && s.all (fun c => !c.isLower)

/-- Python `s.upper()` (ASCII range). -/
def pyUpper (s : List Char) : List Char := s.map Char.toUpper

/-- Python `s.endswith('.')`. -/
def endsWithDot (s : List Char) : Bool :=
  match s.getLast? with
  | some c => c = '.'
  | none => false

/-- A Python exception escaping a function uncaught.  `indexError` is what
`linea[0]` raises on an empty string. -/
inductive PyErr
  | indexError
deriving DecidableEq

/-- Embedding of `detectar_tipo_contenido` (src/main.py:179-203).  The
`[]` branch records that `linea[0]` raises an (unguarded) `IndexError`
when the line is empty; every other path mirrors the `if/elif` chain. -/
def detectar_tipo_contenido (linea : List Char) : Except PyErr (String × Nat) :=
  if pyIsUpper linea = true ∧ linea.length ≤ 50 then
    Except.ok ("TÍTULO", 1)
  else
    match linea with
    | [] => Except.error PyErr.indexError
    | c :: rest =>
      if c.isUpper = true ∧ (c :: rest).length ≤ 100 ∧ endsWithDot (c :: rest) = false then
        Except.ok ("SUBTÍTULO", 2)
      else if (c :: rest).length > 20 then
        Except.ok ("PÁRRAFO", 3)
      else
        Except.ok ("TEXTO", 3)

/-- One page of an opened PDF, as the pipeline observes it:
`extractText` is what `pagina.extract_text()` returns (`none` models
Python `None` for a page with no text layer), `ocrText` is what
`pytesseract.image_to_string` returns on the page rendered at the fixed
zoom. -/
structure Page where
  extractText : Option (List Char)
  ocrText : List Char
deriving DecidableEq

/-- A PDF document: its pages in document order. -/
abbrev PDF := List Page

/-- The direct-extraction buffer built by the loop in `leer_pdf_mejorado`
(src/main.py:31-35): `if texto_pagina:` is Python truthiness, so a page
whose text is `None` or the empty string contributes nothing (not even a
line break). -/
def directBuffer : PDF → List Char
  | [] => []
  | p :: ps =>
    (match p.extractText with
     | some t => if t.isEmpty then [] else t ++ ['\n']
     | none => []) ++ directBuffer ps

/-- One render-plus-OCR call recorded by the OCR fallback loop: the page
index it was issued for and the zoom matrix `fitz.Matrix(2.0, 2.0)`. -/
structure OcrCall where
  pageIndex : Nat
  zoomX : ℚ
  zoomY : ℚ
deriving DecidableEq

/-- The loop of `extraer_texto_con_ocr` (src/main.py:259-272), started at
page index `i`: records every render+OCR call and accumulates
`texto_pagina + "\n"` per page. -/
def ocrLoop : PDF → Nat → List OcrCall × List Char
  | [], _ => ([], [])
  | p :: ps, i =>
    let rest := ocrLoop ps (i + 1)
    (⟨i, 2, 2⟩ :: rest.1, p.ocrText ++ '\n' :: rest.2)

/-- Embedding of `extraer_texto_con_ocr` (src/main.py:234-275): the list
of render+OCR calls performed and the accumulated text. -/
def extraer_texto_con_ocr (pdf : PDF) : List OcrCall × List Char :=
  ocrLoop pdf 0

/-- Embedding of `leer_pdf_mejorado` (src/main.py:12-42), success path:
build the direct buffer; if its stripped length is below 50 replace it by
the OCR fallback output. -/
def leer_pdf_mejorado (pdf : PDF) : List Char :=
  let texto_completo := directBuffer pdf
  if (pyStrip texto_completo).length < 50 then (extraer_texto_con_ocr pdf).2
  else texto_completo

/-- Embedding of `pdf_a_word` (src/main.py:54-110), parameterised by the
extraction result (`none` models `leer_pdf_mejorado` returning `None`)
and whether the output directory already exists.  Returns (whether
`os.makedirs` was called, the ordered paragraph texts of the saved
document, `none` on the early `return None`).  `if not texto_pdf:` is
truthiness: `None` and the empty string both abort before any
filesystem action. -/
def pdf_a_word (texto_pdf : Option (List Char)) (dirExists : Bool) :
    Bool × Option (List (List Char)) :=
  match texto_pdf with
  | none => (false, none)
  | some t =>
    if t.isEmpty then (false, none)
    else
      (!dirExists,
       some ((pySplit t).map (fun linea =>
         if (pyStrip linea).isEmpty then [] else linea)))

/-- The row-building loop of `pdf_a_excel` (src/main.py:150-161): blank
lines are skipped, every other line is stripped and classified; an
exception raised by the classifier propagates. -/
def excelRowsE : List (List Char) → Except PyErr (List (String × List Char × Nat))
  | [] => Except.ok []
  | linea :: rest =>
    let linea_limpia := pyStrip linea
    if linea_limpia.isEmpty then excelRowsE rest
    else
      match detectar_tipo_contenido linea_limpia with
      | Except.error e => Except.error e
      | Except.ok (tipo_contenido, nivel) =>
        match excelRowsE rest with
        | Except.error e => Except.error e
        | Except.ok rs => Except.ok ((tipo_contenido, linea_limpia, nivel) :: rs)

/-- The workbook written by `pdf_a_excel`: sheet title, the three header
cells `A1`, `B1`, `C1`, the data rows from row 2 on, and the display
widths of columns `A`, `B`, `C`. -/
structure ExcelExport where
  sheetTitle : String
  header : String × String × String
  rows : List (String × List Char × Nat)
  colWidths : Nat × Nat × Nat
deriving DecidableEq

/-- Embedding of `pdf_a_excel` (src/main.py:112-177), parameterised like
`pdf_a_word`.  Returns (whether `os.makedirs` was called, the saved
workbook, `none` on failure).  An exception in the row loop is caught by
the surrounding `except` and turned into `None` — after the directory
was already created. -/
def pdf_a_excel (texto_pdf : Option (List Char)) (dirExists : Bool) :
    Bool × Option ExcelExport :=
  match texto_pdf with
  | none => (false, none)
  | some t =>
    if t.isEmpty then (false, none)
    else
      match excelRowsE (pySplit t) with
      | Except.error _ => (!dirExists, none)
      | Except.ok rows =>
        (!dirExists,
         some ⟨"Contenido PDF", ("Tipo", "Contenido", "Nivel"), rows, (12, 80, 8)⟩)

/-- The `try/except` wrapper shared by both exporters: any exception in
the body is caught and becomes the typed failure value `None`
(src/main.py:105-110 and 172-177). -/
def tryConvert (body : Except PyErr (List Char)) : Option (List Char) :=
  match body with
  | Except.ok p => some p
  | Except.error _ => none

/-- One export attempt observed during `procesar_conversion`, with the
typed result the exporter returned. -/
inductive Attempt
  | word (result : Option (List Char))
  | excel (result : Option (List Char))
deriving DecidableEq

/-- Embedding of `procesar_conversion` (src/main.py:336-378): after a
truthy extraction result, attempt the Word export when requested, then
the Excel export when requested, each through its `try/except` wrapper;
the Excel branch does not inspect the Word outcome. -/
def procesar_conversion (texto : Option (List Char)) (tipo_conversion : String)
    (wordBody excelBody : Except PyErr (List Char)) : List Attempt :=
  match texto with
  | none => []
  | some t =>
    if t.isEmpty then []
    else
      (if tipo_conversion = "word" ∨ tipo_conversion = "ambos" then
        [Attempt.word (tryConvert wordBody)]
      else []) ++
      (if tipo_conversion = "excel" ∨ tipo_conversion = "ambos" then
        [Attempt.excel (tryConvert excelBody)]
      else [])

/-- Description of the direct-extraction buffer as the specification words
it (claim C4): every page contributes its selectable text — the empty
string when absent — followed by one line break. -/
def claimedDirectBuffer (pdf : PDF) : List Char :=
  (pdf.map (fun p => p.extractText.getD [] ++ ['\n'])).flatten

/-- Description of the spreadsheet data rows as the specification words
them (claim C6): one row per non-blank line in original order, holding
the classifier role label, the stripped line content and the nesting
level; all-whitespace lines are dropped. -/
def excelRowsSpec (texto : List Char) : List (String × List Char × Nat) :=
  (pySplit texto).filterMap (fun linea =>
    let l := pyStrip linea
    if l.isEmpty then none
    else (detectar_tipo_contenido l).toOption.map (fun tn => (tn.1, l, tn.2)))

/-! Helper lemmas. -/

theorem isEmpty_eq_false_of_ne_nil {α : Type} {t : List α} (h : t ≠ []) :
    t.isEmpty = false := by
  cases t with
  | nil => exact absurd rfl h
  | cons a as => rfl

/-- Reduction of the classifier on a non-empty line: the `IndexError`
branch disappears and the `if/elif` chain remains. -/
theorem detectar_cons (c : Char) (rest : List Char) :
    detectar_tipo_contenido (c :: rest) =
      if pyIsUpper (c :: rest) = true ∧ (c :: rest).length ≤ 50 then
        Except.ok ("TÍTULO", 1)
      else if c.isUpper = true ∧ (c :: rest).length ≤ 100 ∧ endsWithDot (c :: rest) = false then
        Except.ok ("SUBTÍTULO", 2)
      else if (c :: rest).length > 20 then Except.ok ("PÁRRAFO", 3)
      else Except.ok ("TEXTO", 3) := rfl

/-- On a non-empty line the classifier never raises: every branch of the
`if/elif` chain returns a value. -/
theorem detectar_cons_isOk (c : Char) (rest : List Char) :
    ∃ tn, detectar_tipo_contenido (c :: rest) = Except.ok tn := by
  rw [detectar_cons]
  split_ifs <;> exact ⟨_, rfl⟩

/-! Claim theorems. -/

/-- C1, counterexample: the line `"123"` is non-blank, equals its
upper-cased form and has length at most 50, yet the classifier does not
return (Title, 1) for it — `str.isupper()` is false on a line with no
cased character, so the line falls through to the Text rule. -/
theorem detectar_eqUpper_title_cex :
    pyStrip ['1', '2', '3'] ≠ [] ∧
      ['1', '2', '3'] = pyUpper ['1', '2', '3'] ∧
      (['1', '2', '3'] : List Char).length ≤ 50 ∧
      detectar_tipo_contenido ['1', '2', '3'] ≠ Except.ok ("TÍTULO", 1) := by
  refine ⟨by decide, by decide, by decide, ?_⟩
  intro h
  exact absurd (congrArg (fun e => e.toOption.map Prod.snd) h) (by decide)

/-- C1, amended: for every non-blank line on which Python `isupper()`
holds (at least one cased character and no lower-case character) and
whose length is at most 50, the classifier returns (Title, 1). -/
theorem detectar_isupper_title (linea : List Char)
    (hb : pyStrip linea ≠ []) (h1 : pyIsUpper linea = true)
    (h2 : linea.length ≤ 50) :
    detectar_tipo_contenido linea = Except.ok ("TÍTULO", 1) := by
  unfold detectar_tipo_contenido
  rw [if_pos ⟨h1, h2⟩]

/-- C1, witness: the amended title rule applied to the line `"AB"`. -/
theorem detectar_isupper_title_w :
    pyStrip ['A', 'B'] ≠ [] ∧ pyIsUpper ['A', 'B'] = true ∧
      (['A', 'B'] : List Char).length ≤ 50 ∧
      detectar_tipo_contenido ['A', 'B'] = Except.ok ("TÍTULO", 1) :=
  ⟨by decide, by decide, by decide,
    detectar_isupper_title ['A', 'B'] (by decide) (by decide) (by decide)⟩

/-- C2: on every non-blank line that does not match the title rule, the
classifier returns (Subtitle, 2) when the first character is upper-case,
the length is at most 100 and the line does not end with a period;
otherwise (Paragraph, 3) when the length exceeds 20; otherwise
(Text, 3). -/
theorem detectar_below_title (linea : List Char)
    (hb : pyStrip linea ≠ [])
    (hT : ¬(pyIsUpper linea = true ∧ linea.length ≤ 50)) :
    detectar_tipo_contenido linea =
      if linea.head?.any Char.isUpper = true ∧ linea.length ≤ 100 ∧
          endsWithDot linea = false then Except.ok ("SUBTÍTULO", 2)
      else if linea.length > 20 then Except.ok ("PÁRRAFO", 3)
      else Except.ok ("TEXTO", 3) := by
  cases linea with
  | nil => exact absurd rfl hb
  | cons c rest =>
    rw [detectar_cons, if_neg hT]
    simp only [List.head?_cons, Option.any_some]

/-- C2, witness: the non-title rules applied to the line `"Hello"`. -/
theorem detectar_below_title_w :
    pyStrip ['H', 'e', 'l', 'l', 'o'] ≠ [] ∧
      ¬(pyIsUpper ['H', 'e', 'l', 'l', 'o'] = true ∧
        (['H', 'e', 'l', 'l', 'o'] : List Char).length ≤ 50) ∧
      detectar_tipo_contenido ['H', 'e', 'l', 'l', 'o'] =
        (if (['H', 'e', 'l', 'l', 'o'] : List Char).head?.any Char.isUpper = true ∧
            (['H', 'e', 'l', 'l', 'o'] : List Char).length ≤ 100 ∧
            endsWithDot ['H', 'e', 'l', 'l', 'o'] = false then Except.ok ("SUBTÍTULO", 2)
          else if (['H', 'e', 'l', 'l', 'o'] : List Char).length > 20 then
            Except.ok ("PÁRRAFO", 3)
          else Except.ok ("TEXTO", 3)) :=
  ⟨by decide, by decide,
    detectar_below_title ['H', 'e', 'l', 'l', 'o'] (by decide) (by decide)⟩

/-- C7: the code, evaluated at the empty string, raises an unguarded
`IndexError` from `linea[0]` instead of failing with an explicit,
guarded precondition violation — the defect the specification calls
out. -/
theorem detectar_empty_indexError :
    detectar_tipo_contenido [] = Except.error PyErr.indexError := rfl

/-- C3: whenever the stripped direct-extraction buffer has length below
50, the orchestrator returns exactly the output of the OCR path and the
direct buffer is discarded. -/
theorem leer_pdf_uses_ocr (pdf : PDF)
    (h : (pyStrip (directBuffer pdf)).length < 50) :
    leer_pdf_mejorado pdf = (extraer_texto_con_ocr pdf).2 := by
  simp only [leer_pdf_mejorado]
  rw [if_pos h]

/-- C3, witness: a one-page PDF with no text layer whose OCR output is
`"a"`. -/
theorem leer_pdf_uses_ocr_w :
    (pyStrip (directBuffer [⟨none, ['a']⟩])).length < 50 ∧
      leer_pdf_mejorado [⟨none, ['a']⟩] = (extraer_texto_con_ocr [⟨none, ['a']⟩]).2 :=
  ⟨by decide, leer_pdf_uses_ocr [⟨none, ['a']⟩] (by decide)⟩

/-- C4, counterexample: on a one-page PDF whose page has no text layer
the running buffer is empty, while the claimed description (absent text
treated as the empty string, still followed by a line break) yields a
lone line break — the code appends nothing at all for such a page. -/
theorem directBuffer_claim_cex :
    directBuffer [⟨none, []⟩] ≠ claimedDirectBuffer [⟨none, []⟩] := by decide

/-- C4, amended: the buffer equals the concatenation, over the pages
whose selectable text is present and non-empty, of the page text
followed by one line break; pages with absent or empty text contribute
nothing, not even the line break. -/
theorem directBuffer_eq_flatten (pdf : PDF) :
    directBuffer pdf =
      (((pdf.filterMap Page.extractText).filter (fun t => !t.isEmpty)).map
        (fun t => t ++ ['\n'])).flatten := by
  induction pdf with
  | nil => rfl
  | cons p ps ih =>
    cases hpt : p.extractText with
    | none => simp [directBuffer, List.filterMap_cons, hpt, ih]
    | some t =>
      cases t with
      | nil => simp [directBuffer, List.filterMap_cons, List.filter_cons, hpt, ih]
      | cons a as =>
        simp [directBuffer, List.filterMap_cons, List.filter_cons, hpt, ih]

/-- Reduction of `pdf_a_word` on a present extraction result. -/
theorem pdf_a_word_some (t : List Char) (d : Bool) :
    pdf_a_word (some t) d =
      if t.isEmpty then (false, none)
      else
        (!d, some ((pySplit t).map (fun linea =>
          if (pyStrip linea).isEmpty then [] else linea))) := rfl

/-- A list of lines in which every blank line is actually empty is left
unchanged by the paragraph-building step of `pdf_a_word`. -/
theorem map_paragraph_eq_self (ls : List (List Char))
    (hls : ∀ l ∈ ls, pyStrip l = [] → l = []) :
    ls.map (fun linea => if (pyStrip linea).isEmpty then [] else linea) = ls := by
  conv_rhs => rw [← List.map_id ls]
  apply List.map_congr_left
  intro l hl
  cases hp : pyStrip l with
  | nil => simp [hp, hls l hl hp]
  | cons c rest => simp [hp]

/-- C5, counterexample: on the extracted text `" "` (one all-whitespace
line) the flowing-document export writes the empty paragraph, so reading
the paragraphs back does not return the sequence produced by splitting
the input on newlines. -/
theorem pdf_a_word_roundtrip_cex :
    pdf_a_word (some [' ']) true = (false, some [[]]) ∧
      ([[]] : List (List Char)) ≠ pySplit [' '] := by decide

/-- C5, amended: reading the paragraphs back yields the lines of the
input with every all-whitespace line replaced by the empty string; in
particular the round trip is exact whenever every blank line of the
input is actually empty. -/
theorem pdf_a_word_roundtrip (t : List Char) (d : Bool) (hne : t ≠ [])
    (hblank : ∀ l ∈ pySplit t, pyStrip l = [] → l = []) :
    (pdf_a_word (some t) d).2 = some (pySplit t) := by
  rw [pdf_a_word_some, if_neg (by simp [isEmpty_eq_false_of_ne_nil hne])]
  rw [map_paragraph_eq_self (pySplit t) hblank]

/-- C5, witness: the exact round trip on the text `"ab\n\nc"`, whose
blank line is empty. -/
theorem pdf_a_word_roundtrip_w :
    (['a', 'b', '\n', '\n', 'c'] : List Char) ≠ [] ∧
      (∀ l ∈ pySplit ['a', 'b', '\n', '\n', 'c'], pyStrip l = [] → l = []) ∧
      (pdf_a_word (some ['a', 'b', '\n', '\n', 'c']) true).2 =
        some (pySplit ['a', 'b', '\n', '\n', 'c']) :=
  ⟨by decide, by decide,
    pdf_a_word_roundtrip ['a', 'b', '\n', '\n', 'c'] true (by decide) (by decide)⟩

/-- The row loop never raises: every stripped non-blank line is
non-empty, so the classifier returns a value, and the rows are exactly
the claimed per-line classification in original order. -/
theorem excelRowsE_ok (lineas : List (List Char)) :
    excelRowsE lineas = Except.ok (lineas.filterMap (fun linea =>
      let l := pyStrip linea
      if l.isEmpty then none
      else (detectar_tipo_contenido l).toOption.map (fun tn => (tn.1, l, tn.2)))) := by
  induction lineas with
  | nil => rfl
  | cons a as ih =>
    simp only [excelRowsE, List.filterMap_cons]
    cases hpa : pyStrip a with
    | nil => simpa [hpa] using ih
    | cons c rest =>
      obtain ⟨tn, htn⟩ := detectar_cons_isOk c rest
      obtain ⟨tipo, nivel⟩ := tn
      simp [hpa, htn, ih, Except.toOption]

/-- Reduction of `pdf_a_excel` on a present extraction result. -/
theorem pdf_a_excel_some (t : List Char) (d : Bool) :
    pdf_a_excel (some t) d =
      if t.isEmpty then (false, none)
      else
        match excelRowsE (pySplit t) with
        | Except.error _ => (!d, none)
        | Except.ok rows =>
          (!d,
           some ⟨"Contenido PDF", ("Tipo", "Contenido", "Nivel"), rows,
             (12, 80, 8)⟩) := rfl

/-- C6, counterexample: the header cells the code writes are the Spanish
labels `Tipo`, `Contenido`, `Nivel`, not the literal labels `Type`,
`Content`, `Level` the claim states. -/
theorem pdf_a_excel_header_cex :
    ((pdf_a_excel (some ['A']) true).2.map ExcelExport.header) =
        some ("Tipo", "Contenido", "Nivel") ∧
      (("Tipo", "Contenido", "Nivel") : String × String × String) ≠
        ("Type", "Content", "Level") := by
  constructor
  · rfl
  · decide

/-- C6, amended: for every non-empty extracted text the tabular export
produces the header row `Tipo`, `Contenido`, `Nivel` (the code's Spanish
rendering of Type, Content, Level), exactly one data row per non-blank
line in original order holding the classifier role label, the stripped
line content and the nesting level, with all-whitespace lines dropped,
and the display column widths 12, 80 and 8. -/
theorem pdf_a_excel_spec (t : List Char) (d : Bool) (hne : t ≠ []) :
    (pdf_a_excel (some t) d).2 =
      some ⟨"Contenido PDF", ("Tipo", "Contenido", "Nivel"), excelRowsSpec t,
        (12, 80, 8)⟩ := by
  rw [pdf_a_excel_some, if_neg (by simp [isEmpty_eq_false_of_ne_nil hne])]
  rw [excelRowsE_ok]
  rfl

/-- C6, witness: the tabular export of the one-line text `"A"`. -/
theorem pdf_a_excel_spec_w :
    (['A'] : List Char) ≠ [] ∧
      (pdf_a_excel (some ['A']) true).2 =
        some ⟨"Contenido PDF", ("Tipo", "Contenido", "Nivel"), excelRowsSpec ['A'],
          (12, 80, 8)⟩ :=
  ⟨by decide, pdf_a_excel_spec ['A'] true (by decide)⟩

/-- The OCR loop started at index `i` performs one render+OCR call per
remaining page, at zoom (2, 2), and concatenates the per-page output
each followed by a line break. -/
theorem ocrLoop_spec (ps : PDF) (i : Nat) :
    ocrLoop ps i =
      ((List.range ps.length).map (fun k => ⟨i + k, 2, 2⟩),
       (ps.map (fun p => p.ocrText ++ ['\n'])).flatten) := by
  induction ps generalizing i with
  | nil => rfl
  | cons p ps ih =>
    simp only [ocrLoop, ih, List.length_cons, List.range_succ_eq_map, List.map_cons,
      List.map_map, List.flatten_cons, Function.comp, Nat.add_zero, Nat.add_succ,
      Nat.succ_add, List.cons_append, List.append_assoc, List.singleton_append,
      Prod.mk.injEq]
    exact ⟨rfl, rfl⟩

/-- C8: the OCR fallback performs exactly one render+OCR call per page,
in page order, each at the fixed zoom 2.0 in both axes, and returns the
concatenation of the per-page OCR outputs each followed by a line
break. -/
theorem extraer_ocr_per_page (pdf : PDF) :
    (extraer_texto_con_ocr pdf).1 =
        (List.range pdf.length).map (fun i => ⟨i, 2, 2⟩) ∧
      (extraer_texto_con_ocr pdf).2 =
        (pdf.map (fun p => p.ocrText ++ ['\n'])).flatten := by
  unfold extraer_texto_con_ocr
  rw [ocrLoop_spec]
  exact ⟨by simp, rfl⟩

/-- Reduction of `procesar_conversion` on a present extraction result. -/
theorem procesar_some (t : List Char) (tipo_conversion : String)
    (wordBody excelBody : Except PyErr (List Char)) :
    procesar_conversion (some t) tipo_conversion wordBody excelBody =
      if t.isEmpty then []
      else
        (if tipo_conversion = "word" ∨ tipo_conversion = "ambos" then
          [Attempt.word (tryConvert wordBody)]
        else []) ++
        (if tipo_conversion = "excel" ∨ tipo_conversion = "ambos" then
          [Attempt.excel (tryConvert excelBody)]
        else []) := rfl

/-- C9: when both exports are requested, the Word export is attempted and
then the Excel export is attempted whatever the Word outcome was — in
particular after a Word failure — and each outcome reaches the caller as
the typed value the `try/except` wrapper produced (`none` on any
exception), never as an uncaught fault. -/
theorem procesar_ambos_both (t : List Char) (ht : t ≠ [])
    (wordBody excelBody : Except PyErr (List Char)) :
    procesar_conversion (some t) "ambos" wordBody excelBody =
      [Attempt.word (tryConvert wordBody), Attempt.excel (tryConvert excelBody)] := by
  rw [procesar_some, if_neg (by simp [isEmpty_eq_false_of_ne_nil ht])]
  rw [if_pos (Or.inr rfl), if_pos (Or.inr rfl)]
  rfl

/-- C9, witness: on the text `"x"`, a Word export that raises and an
Excel export that succeeds — the Word failure arrives as the typed value
`none` and the Excel export is still attempted. -/
theorem procesar_ambos_both_w :
    (['x'] : List Char) ≠ [] ∧
      procesar_conversion (some ['x']) "ambos" (Except.error PyErr.indexError)
          (Except.ok ['p']) =
        [Attempt.word none, Attempt.excel (some ['p'])] :=
  ⟨by decide,
    procesar_ambos_both ['x'] (by decide) (Except.error PyErr.indexError)
      (Except.ok ['p'])⟩

/-- C10: an extraction result that is the empty string is treated by both
exporters exactly like a failed extraction (`None`): they return the
failure value and neither create the output directory nor write any
file. -/
theorem exporters_empty_extraction (d : Bool) :
    pdf_a_word (some []) d = (false, none) ∧
      pdf_a_excel (some []) d = (false, none) ∧
      pdf_a_word none d = (false, none) ∧
      pdf_a_excel none d = (false, none) :=
  ⟨rfl, rfl, rfl, rfl⟩

end PdfConverter
